import Mathlib

/-!
Verification of the toolchain resolution engine in `build/ymake_conf.py`.

The Python source is shallowly embedded below: pure fragments become Lean
functions on `String`, `List` and `Option`; the preset table (`-D KEY=VALUE`
overrides) is an association list; results of external subprocess calls
(the preprocessor probe) are passed in as explicit parameters.
-/

namespace Ymake

/-! ### Python string primitives

`str.lower()` in Python 2 lowercases exactly the ASCII letters A-Z. -/

/-- ASCII lowercasing of one character, as Python 2 `str.lower` does. -/
def lowerChar (c : Char) : Char :=
  if 65 ≤ c.toNat ∧ c.toNat ≤ 90 then Char.ofNat (c.toNat + 32) else c

/-- Python `s.lower()`. -/
def pyLower (s : String) : String := ⟨s.data.map lowerChar⟩

/-- Python `s.endswith(suffix)`. -/
def pyEndsWith (s suffix : String) : Bool := suffix.data.isSuffixOf s.data

/-- Python `s.startswith(p)`. -/
def pyStartsWith (s p : String) : Bool := p.data.isPrefixOf s.data

/-- Bool substring containment on lists (helper for Python `needle in hay`). -/
def infixOfB (needle : List Char) : List Char → Bool
  | [] => needle.isEmpty
  | c :: t => needle.isPrefixOf (c :: t) || infixOfB needle t

/-- Python `needle in hay` on strings (substring containment). -/
def pyIn (needle hay : String) : Bool := infixOfB needle.data hay.data

/-- Python `a or b` where `a` is a possibly-missing string: `None` and the
empty string are falsy. -/
def pyOrOpt (a b : Option String) : Option String :=
  match a with
  | some s => if s.isEmpty then b else some s
  | none => b

/-- Python `a or b` with a possibly-missing string `a` and a present
default `b`. -/
def pyOrStr (a : Option String) (b : String) : String :=
  match a with
  | some s => if s.isEmpty then b else s
  | none => b

/-! ### Presets

`preset(key)` looks a key up in the table built from `-D KEY=VALUE`
command-line options (`Options.presets`); we model the table as an
association list. -/

/-- The preset table. -/
def Presets : Type := List (String × String)

/-- Source `preset(key)`: `opts().presets.get(key)`. -/
def preset (presets : Presets) (key : String) : Option String :=
  List.lookup key presets

/-- Source `is_positive(key)`: `preset(key, '').lower() in ('yes', 'true', 'on')`. -/
def is_positive (presets : Presets) (key : String) : Bool :=
  (["yes", "true", "on"] : List String).contains (pyLower ((preset presets key).getD ""))

/-! ### Platform model (`class Platform`) -/

/-- Source `Platform`: a canonical `(name, os, arch)` triple. -/
structure Platform where
  name : String
  os : String
  arch : String
deriving DecidableEq

def Platform.is_linux (p : Platform) : Bool := p.os == "linux"

def Platform.is_macos (p : Platform) : Bool := p.os == "macos"

def Platform.is_windows (p : Platform) : Bool := p.os == "windows"

def Platform.is_freebsd (p : Platform) : Bool := p.os == "freebsd"

def Platform.is_ios (p : Platform) : Bool := p.os == "ios"

def Platform.is_android (p : Platform) : Bool := p.os == "android"

def Platform.is_cygwin (p : Platform) : Bool := p.os == "cygwin"

def Platform.is_32_bit (p : Platform) : Bool :=
  (["i386", "i686", "x86", "arm"] : List String).contains p.arch

def Platform.is_64_bit (p : Platform) : Bool := p.arch == "x86_64"

def Platform.is_intel (p : Platform) : Bool :=
  (["i386", "i686", "x86", "x86_64"] : List String).contains p.arch

def Platform.is_x86_64 (p : Platform) : Bool := p.arch == "x86_64"

def Platform.is_aarch64 (p : Platform) : Bool := p.arch == "aarch64"

/-- Source `Platform._parse_os`, after the initial `os_ = os_.lower()`:
the dispatch over the already-lowercased string. The final fallback is
`return os_.lower()` applied to the lowered string. -/
def classifyLoweredOs (t : String) : String :=
  if t == "linux" then "linux"
  else if t == "darwin" || t == "macos" then "macos"
  else if t == "windows" || t == "win" || t == "win32" || t == "win64" then "windows"
  else if t == "freebsd" then "freebsd"
  else if t == "ios" then "ios"
  else if t == "android" then "android"
  else if pyStartsWith t "cygwin" then "cygwin"
  else pyLower t

/-- Source `Platform._parse_os(os_)`. -/
def parse_os (s : String) : String := classifyLoweredOs (pyLower s)

/-- The disjunction of all recognition conditions of `_parse_os`; when this
is false the input falls through to the lowercased-passthrough branch. -/
def osRecognized (s : String) : Bool :=
  let t := pyLower s
  t == "linux" || (t == "darwin" || t == "macos")
    || (t == "windows" || t == "win" || t == "win32" || t == "win64")
    || t == "freebsd" || t == "ios" || t == "android" || pyStartsWith t "cygwin"

/-! ### Version tuples (`ToolchainOptions.version_at_least`) -/

/-- Python tuple `<=` on integer tuples: lexicographic, an exhausted left
tuple compares as smaller. Mirrors `args <= tuple(self.compiler_version_list)`. -/
def pyTupleLe : List Nat → List Nat → Bool
  | [], _ => true
  | _ :: _, [] => false
  | a :: as, b :: bs => if a < b then true else if b < a then false else pyTupleLe as bs

/-- Source `ToolchainOptions.version_at_least(*args)`:
`args <= tuple(self.compiler_version_list)`. -/
def version_at_least (versionList : List Nat) (args : List Nat) : Bool :=
  pyTupleLe args versionList

/-- Spec-side definition (from the spec words, for comparison with the
source): lexicographic order on tuples where a strict prefix counts as
smaller, in less-or-equal form. -/
def lexTupleLe (as bs : List Nat) : Prop := List.Lex (· < ·) as bs ∨ as = bs

theorem pyTupleLe_iff_lex : ∀ as bs : List Nat, pyTupleLe as bs = true ↔ lexTupleLe as bs := by
  intro as
  induction as with
  | nil =>
    intro bs
    cases bs with
    | nil => simp [pyTupleLe, lexTupleLe]
    | cons b bs => simp [pyTupleLe, lexTupleLe]; exact List.Lex.nil
  | cons a as ih =>
    intro bs
    cases bs with
    | nil =>
      simp only [pyTupleLe, lexTupleLe]
      constructor
      · intro h; exact absurd h (by simp)
      · rintro (h | h)
        · cases h
        · cases h
    | cons b bs =>
      simp only [pyTupleLe, lexTupleLe]
      rcases lt_trichotomy a b with hab | hab | hab
      · simp [hab, not_lt.mpr (le_of_lt hab)]
        exact Or.inl (List.Lex.rel hab)
      · subst hab
        simp only [lt_irrefl, if_false]
        rw [ih bs]
        unfold lexTupleLe
        constructor
        · rintro (h | h)
          · exact Or.inl (List.Lex.cons h)
          · subst h; exact Or.inr rfl
        · rintro (h | h)
          · cases h with
            | cons h => exact Or.inl h
            | rel h => exact absurd h (lt_irrefl a)
          · injection h with h1 h2; exact Or.inr h2
      · have h1 : ¬ a < b := not_lt.mpr (le_of_lt hab)
        simp only [h1, if_false, hab, if_true]
        constructor
        · intro h; cases h
        · rintro (h | h)
          · cases h with
            | cons h2 => exact absurd rfl (ne_of_gt hab)
            | rel h2 => exact absurd h2 (not_lt.mpr (le_of_lt hab))
          · injection h with h1 h2; exact absurd h1 (ne_of_gt hab)

/-! ### Canonicalization lemmas for `_parse_os` -/

theorem charToNat_ofNat (n : Nat) (h : n.isValidChar) : (Char.ofNat n).toNat = n := by
  simp [Char.ofNat, h, Char.ofNatAux, Char.toNat, UInt32.toNat, BitVec.toNat_ofNatLt]

theorem lowerChar_idem (c : Char) : lowerChar (lowerChar c) = lowerChar c := by
  by_cases h : 65 ≤ c.toNat ∧ c.toNat ≤ 90
  · have hv : (c.toNat + 32).isValidChar := Or.inl (by omega)
    have ht : (Char.ofNat (c.toNat + 32)).toNat = c.toNat + 32 := charToNat_ofNat _ hv
    have hcond : ¬ (65 ≤ (Char.ofNat (c.toNat + 32)).toNat
        ∧ (Char.ofNat (c.toNat + 32)).toNat ≤ 90) := by
      rw [ht]; omega
    unfold lowerChar
    rw [if_pos h, if_neg hcond]
  · unfold lowerChar
    simp [h]

theorem pyLower_idem (s : String) : pyLower (pyLower s) = pyLower s := by
  unfold pyLower
  simp only [List.map_map]
  congr 1
  induction s.data with
  | nil => rfl
  | cons c t ih => simp [Function.comp, lowerChar_idem, ih]

theorem parse_os_lower (s : String) : parse_os (pyLower s) = parse_os s := by
  unfold parse_os
  rw [pyLower_idem]

theorem parse_os_cases (s : String) :
    parse_os s ∈ (["linux", "macos", "windows", "freebsd", "ios", "android", "cygwin"]
      : List String)
    ∨ parse_os s = pyLower s := by
  unfold parse_os classifyLoweredOs
  split
  · left; decide
  · split
    · left; decide
    · split
      · left; decide
      · split
        · left; decide
        · split
          · left; decide
          · split
            · left; decide
            · split
              · left; decide
              · right; exact pyLower_idem s

theorem parse_os_idem (s : String) : parse_os (parse_os s) = parse_os s := by
  rcases parse_os_cases s with hmem | hfall
  · simp only [List.mem_cons, List.not_mem_nil, or_false] at hmem
    rcases hmem with h | h | h | h | h | h | h <;> rw [h] <;> decide
  · rw [hfall, parse_os_lower, hfall]

theorem osRecognized_eq_false_iff (s : String) :
    osRecognized s = false ↔
      ((pyLower s == "linux") = false ∧ (pyLower s == "darwin") = false
        ∧ (pyLower s == "macos") = false ∧ (pyLower s == "windows") = false
        ∧ (pyLower s == "win") = false ∧ (pyLower s == "win32") = false
        ∧ (pyLower s == "win64") = false ∧ (pyLower s == "freebsd") = false
        ∧ (pyLower s == "ios") = false ∧ (pyLower s == "android") = false
        ∧ pyStartsWith (pyLower s) "cygwin" = false) := by
  unfold osRecognized
  simp only [Bool.or_eq_false_iff]
  tauto

theorem parse_os_unrecognized (s : String) (h : osRecognized s = false) :
    parse_os s = pyLower s := by
  obtain ⟨h1, h2, h3, h4, h5, h6, h7, h8, h9, h10, h11⟩ := (osRecognized_eq_false_iff s).mp h
  unfold parse_os classifyLoweredOs
  simp only [h1, h2, h3, h4, h5, h6, h7, h8, h9, h10, h11, Bool.or_self, Bool.or_false,
    Bool.false_eq_true, if_false]
  exact pyLower_idem s

theorem parse_os_cygwin (s : String) (h : pyStartsWith (pyLower s) "cygwin" = true) :
    parse_os s = "cygwin" := by
  have h1 : (pyLower s == "linux") = false := by
    cases he : pyLower s == "linux"
    · rfl
    · rw [eq_of_beq he] at h; exact absurd h (by decide)
  have h2 : (pyLower s == "darwin") = false := by
    cases he : pyLower s == "darwin"
    · rfl
    · rw [eq_of_beq he] at h; exact absurd h (by decide)
  have h3 : (pyLower s == "macos") = false := by
    cases he : pyLower s == "macos"
    · rfl
    · rw [eq_of_beq he] at h; exact absurd h (by decide)
  have h4 : (pyLower s == "windows") = false := by
    cases he : pyLower s == "windows"
    · rfl
    · rw [eq_of_beq he] at h; exact absurd h (by decide)
  have h5 : (pyLower s == "win") = false := by
    cases he : pyLower s == "win"
    · rfl
    · rw [eq_of_beq he] at h; exact absurd h (by decide)
  have h6 : (pyLower s == "win32") = false := by
    cases he : pyLower s == "win32"
    · rfl
    · rw [eq_of_beq he] at h; exact absurd h (by decide)
  have h7 : (pyLower s == "win64") = false := by
    cases he : pyLower s == "win64"
    · rfl
    · rw [eq_of_beq he] at h; exact absurd h (by decide)
  have h8 : (pyLower s == "freebsd") = false := by
    cases he : pyLower s == "freebsd"
    · rfl
    · rw [eq_of_beq he] at h; exact absurd h (by decide)
  have h9 : (pyLower s == "ios") = false := by
    cases he : pyLower s == "ios"
    · rfl
    · rw [eq_of_beq he] at h; exact absurd h (by decide)
  have h10 : (pyLower s == "android") = false := by
    cases he : pyLower s == "android"
    · rfl
    · rw [eq_of_beq he] at h; exact absurd h (by decide)
  unfold parse_os classifyLoweredOs
  simp [h1, h2, h3, h4, h5, h6, h7, h8, h9, h10, h]

/-- C6: OS-name canonicalization is case-insensitive and idempotent,
collapses the documented aliases (darwin/macos, win/win32/win64/windows,
cygwin-prefixed), maps any unrecognized input to its lowercased form, and
never fails (it is a total function). -/
theorem parse_os_canonicalization :
    (∀ s, parse_os (parse_os s) = parse_os s)
    ∧ (∀ s, parse_os (pyLower s) = parse_os s)
    ∧ (parse_os "Darwin" = "macos" ∧ parse_os "macOS" = "macos"
        ∧ parse_os "LINUX" = "linux")
    ∧ (parse_os "win" = "windows" ∧ parse_os "Win32" = "windows"
        ∧ parse_os "win64" = "windows" ∧ parse_os "WINDOWS" = "windows")
    ∧ (∀ s, pyStartsWith (pyLower s) "cygwin" = true → parse_os s = "cygwin")
    ∧ (∀ s, osRecognized s = false → parse_os s = pyLower s) := by
  exact ⟨parse_os_idem, parse_os_lower, ⟨by decide, by decide, by decide⟩,
    ⟨by decide, by decide, by decide, by decide⟩, parse_os_cygwin, parse_os_unrecognized⟩

/-- C6 witness: the hypothesis-bearing conjuncts of the canonicalization
theorem applied at concrete inputs. -/
theorem parse_os_canonicalization_witness :
    (pyStartsWith (pyLower "Cygwin-1.7") "cygwin" = true ∧ parse_os "Cygwin-1.7" = "cygwin")
    ∧ (osRecognized "SunOS" = false ∧ parse_os "SunOS" = pyLower "SunOS") :=
  ⟨⟨by decide, parse_os_canonicalization.2.2.2.2.1 "Cygwin-1.7" (by decide)⟩,
   ⟨by decide, parse_os_canonicalization.2.2.2.2.2 "SunOS" (by decide)⟩⟩

/-- C4: `version_at_least(a,b,c,...)` returns true exactly when the argument
tuple is lexicographically less than or equal to the detected compiler
version tuple, a strict prefix counting as smaller; in particular version
`(4,9,0)` satisfies `version_at_least(4,9)` and version `(3,8)` does not
satisfy `version_at_least(3,9)`. -/
theorem version_at_least_is_lex_tuple_le :
    (∀ versionList args : List Nat,
      version_at_least versionList args = true ↔ lexTupleLe args versionList)
    ∧ version_at_least [4, 9, 0] [4, 9] = true
    ∧ version_at_least [3, 8] [3, 9] = false := by
  refine ⟨fun versionList args => pyTupleLe_iff_lex args versionList, by decide, by decide⟩

/-! ### Build modes (`class Build` predicates) -/

/-- Source `Build.is_release`. -/
def is_release (bt : String) : Bool :=
  bt == "release" || bt == "relwithdebinfo" || bt == "profile" || bt == "gprof"
    || pyEndsWith bt "-release"

/-- Source `Build.is_debug`. -/
def is_debug (bt : String) : Bool := bt == "debug" || pyEndsWith bt "-debug"

/-- Source `Build.is_coverage`. -/
def is_coverage (bt : String) : Bool := bt == "coverage"

/-- Source `Build.with_ndebug`. -/
def with_ndebug (bt : String) : Bool :=
  bt == "release" || bt == "valgrind-release" || bt == "profile" || bt == "gprof"

/-- Source `Build.is_valgrind`. -/
def is_valgrind (bt : String) : Bool := bt == "valgrind" || bt == "valgrind-release"

/-- Source `Build.is_ide_build_type` / `Build.is_ide`. -/
def is_ide (bt : String) : Bool := bt == "nobuild"

/-- Source `Build.profiler_type`. -/
def profiler_type (bt : String) : Option String :=
  if bt == "profile" then some "generic"
  else if bt == "gprof" then some "gprof"
  else none

/-- A build context: the classified build-type string plus the preset table. -/
structure Build where
  build_type : String
  presets : Presets

/-- Source `Build.is_sanitized`: the truthiness of `preset('SANITIZER_TYPE')`;
it reads only the preset table, never the build type. -/
def Build.is_sanitized (b : Build) : Bool :=
  match preset b.presets "SANITIZER_TYPE" with
  | some s => !s.isEmpty
  | none => false

/-- The build-mode vocabulary of the spec: the closed base set plus the
suffixed `*-release` / `*-debug` variants. -/
def modeVocab (bt : String) : Prop :=
  bt ∈ (["debug", "release", "coverage", "profile", "gprof", "valgrind",
          "valgrind-release", "nobuild"] : List String)
  ∨ pyEndsWith bt "-release" = true ∨ pyEndsWith bt "-debug" = true

/-- How many of the mutually-exclusive-looking mode predicates hold. -/
def modeCount (bt : String) : Nat :=
  ([is_release bt, is_debug bt, is_coverage bt, is_valgrind bt, is_ide bt].filter id).length

theorem not_endsWith_release_debug (s : String) (h1 : pyEndsWith s "-release" = true)
    (h2 : pyEndsWith s "-debug" = true) : False := by
  rw [pyEndsWith, List.isSuffixOf_iff_suffix] at h1 h2
  rcases List.suffix_or_suffix_of_suffix h1 h2 with h | h
  · have hb : ("-release".data).isSuffixOf ("-debug".data) = true :=
      List.isSuffixOf_iff_suffix.mpr h
    exact absurd hb (by decide)
  · have hb : ("-debug".data).isSuffixOf ("-release".data) = true :=
      List.isSuffixOf_iff_suffix.mpr h
    exact absurd hb (by decide)

theorem ne_lit_of_endsWith (s lit suf : String) (h : pyEndsWith s suf = true)
    (hl : pyEndsWith lit suf = false) : (s == lit) = false := by
  cases he : s == lit
  · rfl
  · rw [eq_of_beq he] at h
    rw [hl] at h
    exact Bool.noConfusion h

/-- C9 counterexample: the recognized build type `valgrind-release` makes two
of the mode predicates true at once (`is_release` and `is_valgrind`), so the
mode predicates are not mutually exclusive over the recognized vocabulary. -/
theorem build_mode_predicates_not_mutually_exclusive :
    modeVocab "valgrind-release"
    ∧ is_release "valgrind-release" = true
    ∧ is_valgrind "valgrind-release" = true
    ∧ modeCount "valgrind-release" = 2 :=
  ⟨Or.inl (by decide), by decide, by decide, by decide⟩

/-- C9 (amended): for every build-mode string in the recognized vocabulary,
exactly one of `is_release`, `is_debug`, `is_coverage`, `is_valgrind`,
`is_ide` is true, except for `valgrind-release` where `is_release` and
`is_valgrind` both hold; the sanitizer state is orthogonal: it depends only
on the preset table, never on the build type, so it may hold in combination
with any mode. -/
theorem build_mode_predicates_partition :
    (∀ bt : String, modeVocab bt →
      modeCount bt = 1 ∨ (bt = "valgrind-release" ∧ modeCount bt = 2))
    ∧ (∀ (p : Presets) (bt1 bt2 : String),
        Build.is_sanitized ⟨bt1, p⟩ = Build.is_sanitized ⟨bt2, p⟩)
    ∧ (Build.is_sanitized ⟨"release", [("SANITIZER_TYPE", "address")]⟩ = true
        ∧ is_release "release" = true) := by
  refine ⟨?_, fun p bt1 bt2 => rfl, by decide, by decide⟩
  intro bt hv
  rcases hv with hmem | hrel | hdeb
  · simp only [List.mem_cons, List.not_mem_nil, or_false] at hmem
    rcases hmem with h | h | h | h | h | h | h | h <;> subst h <;> first
      | (left; decide)
      | (right; exact ⟨rfl, by decide⟩)
  · by_cases hvr : bt = "valgrind-release"
    · right
      exact ⟨hvr, by rw [hvr]; decide⟩
    · left
      have e1 : is_release bt = true := by
        unfold is_release
        rw [hrel]
        simp
      have hd1 := ne_lit_of_endsWith bt "debug" "-release" hrel (by decide)
      have hd2 : pyEndsWith bt "-debug" = false := by
        cases he : pyEndsWith bt "-debug"
        · rfl
        · exact (not_endsWith_release_debug bt hrel he).elim
      have e2 : is_debug bt = false := by
        unfold is_debug
        rw [hd1, hd2]
        rfl
      have e3 : is_coverage bt = false := by
        unfold is_coverage
        exact ne_lit_of_endsWith bt "coverage" "-release" hrel (by decide)
      have hv1 := ne_lit_of_endsWith bt "valgrind" "-release" hrel (by decide)
      have hv2 : (bt == "valgrind-release") = false := by
        cases he : bt == "valgrind-release"
        · rfl
        · exact absurd (eq_of_beq he) hvr
      have e4 : is_valgrind bt = false := by
        unfold is_valgrind
        rw [hv1, hv2]
        rfl
      have e5 : is_ide bt = false := by
        unfold is_ide
        exact ne_lit_of_endsWith bt "nobuild" "-release" hrel (by decide)
      unfold modeCount
      rw [e1, e2, e3, e4, e5]
      rfl
  · have e2 : is_debug bt = true := by
      unfold is_debug
      rw [hdeb]
      simp
    have hr1 := ne_lit_of_endsWith bt "release" "-debug" hdeb (by decide)
    have hr2 := ne_lit_of_endsWith bt "relwithdebinfo" "-debug" hdeb (by decide)
    have hr3 := ne_lit_of_endsWith bt "profile" "-debug" hdeb (by decide)
    have hr4 := ne_lit_of_endsWith bt "gprof" "-debug" hdeb (by decide)
    have hr5 : pyEndsWith bt "-release" = false := by
      cases he : pyEndsWith bt "-release"
      · rfl
      · exact (not_endsWith_release_debug bt he hdeb).elim
    have e1 : is_release bt = false := by
      unfold is_release
      rw [hr1, hr2, hr3, hr4, hr5]
      rfl
    have e3 : is_coverage bt = false := by
      unfold is_coverage
      exact ne_lit_of_endsWith bt "coverage" "-debug" hdeb (by decide)
    have hv1 := ne_lit_of_endsWith bt "valgrind" "-debug" hdeb (by decide)
    have hv2 := ne_lit_of_endsWith bt "valgrind-release" "-debug" hdeb (by decide)
    have e4 : is_valgrind bt = false := by
      unfold is_valgrind
      rw [hv1, hv2]
      rfl
    have e5 : is_ide bt = false := by
      unfold is_ide
      exact ne_lit_of_endsWith bt "nobuild" "-debug" hdeb (by decide)
    left
    unfold modeCount
    rw [e1, e2, e3, e4, e5]
    rfl

/-- C9 witness: the partition theorem applied at the concrete recognized
build type `profile`, and sanitizer orthogonality at two concrete modes. -/
theorem build_mode_predicates_partition_witness :
    (modeCount "profile" = 1 ∨ ("profile" = "valgrind-release" ∧ modeCount "profile" = 2))
    ∧ Build.is_sanitized ⟨"debug", [("SANITIZER_TYPE", "address")]⟩
        = Build.is_sanitized ⟨"release", [("SANITIZER_TYPE", "address")]⟩ :=
  ⟨build_mode_predicates_partition.1 "profile" (Or.inl (by decide)),
   build_mode_predicates_partition.2.1 [("SANITIZER_TYPE", "address")] "debug" "release"⟩

/-! ### Compiler detection (`class CompilerDetector`)

The preprocessor child process is external: the `stdout` of the probe (or
`None` when the invocation could not be run) is passed in explicitly.
Everything after that point is embedded from the source. -/

/-- Source `CompilerDetector.detect` macro name lists. -/
def clang_vars : List String := ["__clang_major__", "__clang_minor__", "__clang_patchlevel__"]

def gcc_vars : List String := ["__GNUC__", "__GNUC_MINOR__", "__GNUC_PATCHLEVEL__"]

def msvc_vars : List String := ["_MSC_VER"]

/-- The marker prepended to each probed macro in `get_compiler_vars`. -/
def yaVarMarker : String := "____YA_VAR_"

/-- Python `line.split('=', 1)`. -/
def pySplit1 (line : String) : List String :=
  match line.splitOn "=" with
  | [] => [line]
  | [x] => [x]
  | x :: rest => [x, String.intercalate "=" rest]

/-- Source `get_compiler_vars` stdout parsing: keep `NAME=value` lines whose
name carries the marker, dropping entries whose value still equals the macro
name (the macro was not substituted). -/
def parseCompilerVars (stdout : String) : List (String × String) :=
  (stdout.splitOn "\n").filterMap fun line =>
    match pySplit1 line with
    | [nm, value] =>
      if yaVarMarker.data.isPrefixOf nm.data then
        let key := nm.drop yaVarMarker.length
        if value == key then none else some (key, value)
      else none
    | _ => none

/-- Python dict lookup over the parsed variables (later lines overwrite
earlier ones, so the last binding wins). -/
def pyDictGet (vars : List (String × String)) (k : String) : Option String :=
  ((vars.filter fun p => p.1 == k).getLast?).map (·.2)

/-- Decimal digit value of a character, if it is a digit. -/
def digitVal (c : Char) : Option Nat :=
  if 48 ≤ c.toNat ∧ c.toNat ≤ 57 then some (c.toNat - 48) else none

/-- Parse a nonempty all-digit character list as a natural number. -/
def digitsToNat (l : List Char) : Option Nat :=
  if l.isEmpty then none
  else l.foldl (fun acc c => acc.bind fun a => (digitVal c).map fun d => a * 10 + d) (some 0)

/-- Python `int(s)` on a decimal string literal: an optional sign followed
by digits, `None` on anything else (the `ValueError` is caught by the
caller). -/
def pyInt (s : String) : Option Int :=
  match s.data with
  | '-' :: rest => (digitsToNat rest).map fun n => -(n : Int)
  | '+' :: rest => (digitsToNat rest).map fun n => (n : Int)
  | l => (digitsToNat l).map fun n => (n : Int)

/-- Source `detect.version(version_names)`: parse every named macro as an
integer; any missing name or failed parse invalidates the whole family. -/
def parseVersion (vars : List (String × String)) (names : List String) : Option (List Int) :=
  names.mapM fun n => (pyDictGet vars n).bind pyInt

/-- Python truthiness of an optional list (`None` and `[]` are falsy). -/
def listTruthy (o : Option (List Int)) : Bool :=
  match o with
  | some l => !l.isEmpty
  | none => false

/-- The family cascade of `CompilerDetector.detect`: Clang, then GCC, then
MSVC. -/
def detectType (vars : List (String × String)) : Option String :=
  if listTruthy (parseVersion vars clang_vars) then some "clang"
  else if listTruthy (parseVersion vars gcc_vars) then some "gnu"
  else if listTruthy (parseVersion vars msvc_vars) then some "msvc"
  else none

/-- Python `a or b` over optional version lists. -/
def pyOrVersion (a b : Option (List Int)) : Option (List Int) :=
  if listTruthy a then a else b

/-- Outcome of `CompilerDetector.detect`: either a detected family and
version, or a raised `ConfigureError`. -/
inductive DetectResult where
  | ok (ty : String) (versionList : List Int)
  | error (msg : String)
deriving DecidableEq

def isError : DetectResult → Bool
  | .error _ => true
  | .ok _ _ => false

/-- The compiler-path resolution at the top of `detect`:
`c_compiler or CC`, `cxx_compiler or CXX or c_compiler`,
`c_compiler or cxx_compiler`. -/
def resolvedCCompiler (cParam cxxParam envCC envCXX : Option String) : Option String :=
  let c0 := pyOrOpt cParam envCC
  let cxx0 := pyOrOpt cxxParam (pyOrOpt envCXX c0)
  pyOrOpt c0 cxx0

/-- Source `CompilerDetector.detect`, with the preprocessor probe stdout as
an explicit input (`none` when the invocation could not be run at all). -/
def detect (cParam cxxParam envCC envCXX : Option String) (stdout : Option String) :
    DetectResult :=
  match resolvedCCompiler cParam cxxParam envCC envCXX with
  | none => .error "Custom compiler was requested but not specified"
  | some _ =>
    match stdout with
    | none => .error "Could not determine custom compiler version"
    | some out =>
      let vars := parseCompilerVars out
      if vars.isEmpty then .error "Could not determine custom compiler version"
      else
        match detectType vars with
        | some ty =>
          .ok ty ((pyOrVersion (parseVersion vars clang_vars)
            (pyOrVersion (parseVersion vars gcc_vars) (parseVersion vars msvc_vars))).getD [])
        | none => .error "Could not determine custom compiler type"

theorem detectType_eq_none_iff (vars : List (String × String)) :
    detectType vars = none ↔
      (listTruthy (parseVersion vars clang_vars) = false
        ∧ listTruthy (parseVersion vars gcc_vars) = false
        ∧ listTruthy (parseVersion vars msvc_vars) = false) := by
  unfold detectType
  by_cases h1 : listTruthy (parseVersion vars clang_vars) = true
  · simp [h1]
  · rw [Bool.not_eq_true] at h1
    by_cases h2 : listTruthy (parseVersion vars gcc_vars) = true
    · simp [h1, h2]
    · rw [Bool.not_eq_true] at h2
      by_cases h3 : listTruthy (parseVersion vars msvc_vars) = true
      · simp [h1, h2, h3]
      · rw [Bool.not_eq_true] at h3
        simp [h1, h2, h3]

/-- C5: when the version macros of more than one compiler family all
substitute and parse as integers, the family precedence is Clang over GCC
over MSVC; in particular, if both the Clang and the GCC macros resolve, the
detected family is Clang. -/
theorem compiler_family_precedence :
    (∀ vars : List (String × String),
      listTruthy (parseVersion vars clang_vars) = true → detectType vars = some "clang")
    ∧ (∀ vars : List (String × String),
        listTruthy (parseVersion vars clang_vars) = false →
        listTruthy (parseVersion vars gcc_vars) = true → detectType vars = some "gnu")
    ∧ (∀ vars : List (String × String),
        listTruthy (parseVersion vars clang_vars) = false →
        listTruthy (parseVersion vars gcc_vars) = false →
        listTruthy (parseVersion vars msvc_vars) = true → detectType vars = some "msvc") := by
  refine ⟨?_, ?_, ?_⟩
  · intro vars h
    simp [detectType, h]
  · intro vars h1 h2
    simp [detectType, h1, h2]
  · intro vars h1 h2 h3
    simp [detectType, h1, h2, h3]

/-- C5 witness: with both the Clang and the GCC version macros substituted,
detection picks Clang. -/
theorem compiler_family_precedence_witness :
    listTruthy (parseVersion
      [("__clang_major__", "3"), ("__clang_minor__", "9"), ("__clang_patchlevel__", "0"),
       ("__GNUC__", "4"), ("__GNUC_MINOR__", "9"), ("__GNUC_PATCHLEVEL__", "2")]
      clang_vars) = true
    ∧ detectType
      [("__clang_major__", "3"), ("__clang_minor__", "9"), ("__clang_patchlevel__", "0"),
       ("__GNUC__", "4"), ("__GNUC_MINOR__", "9"), ("__GNUC_PATCHLEVEL__", "2")]
      = some "clang" :=
  ⟨by decide,
   compiler_family_precedence.1
     [("__clang_major__", "3"), ("__clang_minor__", "9"), ("__clang_patchlevel__", "0"),
      ("__GNUC__", "4"), ("__GNUC_MINOR__", "9"), ("__GNUC_PATCHLEVEL__", "2")]
     (by decide)⟩

/-- C8: compiler detection fails with a fatal configuration error, with no
retry and no partial result, in exactly these cases: no compiler path can be
determined at all, the preprocessor invocation cannot be run, the probe
output contains no substituted macro, or none of the Clang/GCC/MSVC
version-macro families parses completely as integers. -/
theorem detect_error_cases :
    ∀ (cParam cxxParam envCC envCXX : Option String) (stdout : Option String),
      isError (detect cParam cxxParam envCC envCXX stdout) = true ↔
        (resolvedCCompiler cParam cxxParam envCC envCXX = none
          ∨ stdout = none
          ∨ (∃ out, stdout = some out
              ∧ ((parseCompilerVars out).isEmpty = true
                  ∨ (listTruthy (parseVersion (parseCompilerVars out) clang_vars) = false
                      ∧ listTruthy (parseVersion (parseCompilerVars out) gcc_vars) = false
                      ∧ listTruthy (parseVersion (parseCompilerVars out) msvc_vars) = false)))) := by
  intro cParam cxxParam envCC envCXX stdout
  unfold detect
  cases hres : resolvedCCompiler cParam cxxParam envCC envCXX with
  | none => simp [isError]
  | some p =>
    cases stdout with
    | none => simp [isError]
    | some out =>
      simp only [Option.some.injEq, reduceCtorEq, false_or, exists_eq_left']
      by_cases hemp : (parseCompilerVars out).isEmpty = true
      · simp [isError, hemp]
      · rw [Bool.not_eq_true] at hemp
        cases hdt : detectType (parseCompilerVars out) with
        | some ty =>
          have hne := (detectType_eq_none_iff (parseCompilerVars out)).not.mp (by simp [hdt])
          simp [isError, hemp, hdt]
          intro h1 h2
          cases hc : listTruthy (parseVersion (parseCompilerVars out) msvc_vars)
          · exact absurd ⟨h1, h2, hc⟩ hne
          · rfl
        | none =>
          have h3 := (detectType_eq_none_iff (parseCompilerVars out)).mp hdt
          simp [isError, hemp, hdt, h3]

/-! ### Variable emission sink (`class Variables`, `emit`, `append`)

`Variables` is a name-to-tokens mapping whose bulk `emit` iterates the
names in `sorted` order. The `NAME+=tokens` append protocol accumulates
tokens for a name across call sites. -/

/-- The emission-sink store: a name-to-token-sequence mapping. -/
structure VarStore where
  vars : List (String × List String)
deriving DecidableEq

/-- Source `Variables` dict assignment `self[k] = v`: overwrite, creating
the name when absent. -/
def setVar (st : VarStore) (k : String) (v : List String) : VarStore :=
  if st.vars.any fun p => p.1 == k then
    ⟨st.vars.map fun p => cond (p.1 == k) (p.1, v) p⟩
  else ⟨st.vars ++ [(k, v)]⟩

/-- Modelled from the spec: the accumulate semantics of the `NAME+=tokens`
line protocol printed by `append` is interpreted by the external
build-graph evaluator (not part of this repository); per the spec, append
extends the token sequence of the name, creating it when absent, and
preserves call order across call sites. -/
def appendVar (st : VarStore) (k : String) (v : List String) : VarStore :=
  if st.vars.any fun p => p.1 == k then
    ⟨st.vars.map fun p => cond (p.1 == k) (p.1, p.2 ++ v) p⟩
  else ⟨st.vars ++ [(k, v)]⟩

/-- Lexicographic less-or-equal on character lists by code point, the order
Python `sorted` uses on byte strings. -/
def charListLe : List Char → List Char → Bool
  | [], _ => true
  | _ :: _, [] => false
  | a :: as, b :: bs =>
    if a.toNat < b.toNat then true
    else if b.toNat < a.toNat then false
    else charListLe as bs

theorem charListLe_total : ∀ as bs : List Char, charListLe as bs = true ∨ charListLe bs as = true := by
  intro as
  induction as with
  | nil => intro bs; left; rfl
  | cons a as ih =>
    intro bs
    cases bs with
    | nil => right; rfl
    | cons b bs =>
      unfold charListLe
      rcases lt_trichotomy a.toNat b.toNat with h | h | h
      · left; simp [h]
      · have h1 : ¬ a.toNat < b.toNat := by omega
        have h2 : ¬ b.toNat < a.toNat := by omega
        rcases ih bs with hr | hr
        · left; simp [h1, h2, hr]
        · right; simp [h1, h2, hr]
      · right; simp [h]

theorem charListLe_trans : ∀ as bs cs : List Char,
    charListLe as bs = true → charListLe bs cs = true → charListLe as cs = true := by
  intro as
  induction as with
  | nil => intro bs cs h1 h2; rfl
  | cons a as ih =>
    intro bs cs h1 h2
    cases bs with
    | nil => exact absurd h1 (by simp [charListLe])
    | cons b bs =>
      cases cs with
      | nil => exact absurd h2 (by simp [charListLe])
      | cons c cs =>
        unfold charListLe at h1 h2 ⊢
        by_cases hab : a.toNat < b.toNat
        · by_cases hbc : b.toNat < c.toNat
          · simp [show a.toNat < c.toNat by omega]
          · by_cases hcb : c.toNat < b.toNat
            · simp [hbc, hcb] at h2
            · simp [show a.toNat < c.toNat by omega]
        · by_cases hba : b.toNat < a.toNat
          · simp [hab, hba] at h1
          · have hab2 : a.toNat = b.toNat := by omega
            by_cases hbc : b.toNat < c.toNat
            · simp [show a.toNat < c.toNat by omega]
            · by_cases hcb : c.toNat < b.toNat
              · simp [hbc, hcb] at h2
              · have h1' : charListLe as bs = true := by simpa [hab, hba] using h1
                have h2' : charListLe bs cs = true := by simpa [hbc, hcb] using h2
                have hac1 : ¬ a.toNat < c.toNat := by omega
                have hac2 : ¬ c.toNat < a.toNat := by omega
                simp [hac1, hac2]
                exact ih bs cs h1' h2'

/-- Order on store entries by variable name. -/
def keyLe (a b : String × List String) : Prop := charListLe a.1.data b.1.data = true

instance : DecidableRel keyLe := fun a b =>
  inferInstanceAs (Decidable (charListLe a.1.data b.1.data = true))

instance : IsTotal (String × List String) keyLe :=
  ⟨fun a b => charListLe_total a.1.data b.1.data⟩

instance : IsTrans (String × List String) keyLe :=
  ⟨fun a b c h1 h2 => charListLe_trans a.1.data b.1.data c.1.data h1 h2⟩

/-- Source `Variables.emit`: `for k in sorted(self.keys()): emit(k, self[k])` —
the bulk dump lists the entries in sorted name order. -/
def VarStore.dump (st : VarStore) : List (String × List String) :=
  List.insertionSort keyLe st.vars

/-- The token sequence currently held for a name. -/
def getTokens (st : VarStore) (k : String) : List String :=
  match st.vars.lookup k with
  | some v => v
  | none => []

theorem beq_comm_false (k p : String) (hp : (p == k) = false) : (k == p) = false := by
  cases he : k == p
  · rfl
  · have hkp : k = p := eq_of_beq he
    rw [hkp, beq_self_eq_true] at hp
    exact Bool.noConfusion hp

theorem lookup_map_append (l : List (String × List String)) (k : String) (v : List String) :
    (l.map fun p => cond (p.1 == k) (p.1, p.2 ++ v) p).lookup k
      = (l.lookup k).map (· ++ v) := by
  induction l with
  | nil => rfl
  | cons p t ih =>
    cases hp : p.1 == k
    · have hk : (k == p.1) = false := beq_comm_false k p.1 hp
      simp only [List.map_cons, hp, cond_false, List.lookup, hk]
      exact ih
    · have hk : (k == p.1) = true := by
        rw [eq_of_beq hp]
        exact beq_self_eq_true k
      simp only [List.map_cons, hp, cond_true, List.lookup, hk, Option.map_some']

theorem lookup_eq_none_of_any_false (l : List (String × List String)) (k : String)
    (h : l.any (fun p => p.1 == k) = false) : l.lookup k = none := by
  induction l with
  | nil => rfl
  | cons p t ih =>
    rw [List.any_cons, Bool.or_eq_false_iff] at h
    have hk : (k == p.1) = false := beq_comm_false k p.1 h.1
    simp only [List.lookup, hk]
    exact ih h.2

theorem lookup_append_absent (l : List (String × List String)) (k : String) (v : List String)
    (h : l.any (fun p => p.1 == k) = false) :
    (l ++ [(k, v)]).lookup k = some v := by
  induction l with
  | nil => simp [List.lookup]
  | cons p t ih =>
    rw [List.any_cons, Bool.or_eq_false_iff] at h
    have hk : (k == p.1) = false := beq_comm_false k p.1 h.1
    simp only [List.cons_append, List.lookup, hk]
    exact ih h.2

theorem lookup_isSome_of_any (l : List (String × List String)) (k : String)
    (h : l.any (fun p => p.1 == k) = true) : (l.lookup k).isSome = true := by
  induction l with
  | nil => cases h
  | cons p t ih =>
    cases hp : p.1 == k
    · have hk : (k == p.1) = false := beq_comm_false k p.1 hp
      have ht : t.any (fun q => q.1 == k) = true := by
        rw [List.any_cons, hp] at h
        simpa using h
      simp only [List.lookup, hk]
      exact ih ht
    · have hk : (k == p.1) = true := by
        rw [eq_of_beq hp]
        exact beq_self_eq_true k
      simp only [List.lookup, hk, Option.isSome]

theorem getTokens_appendVar (st : VarStore) (k : String) (v : List String) :
    getTokens (appendVar st k v) k = getTokens st k ++ v := by
  unfold appendVar getTokens
  cases h : st.vars.any fun p => p.1 == k
  · simp only [Bool.false_eq_true, if_false]
    rw [lookup_append_absent st.vars k v h, lookup_eq_none_of_any_false st.vars k h]
    rfl
  · simp only [if_true]
    rw [lookup_map_append st.vars k v]
    cases hlk : st.vars.lookup k with
    | none =>
      have hs := lookup_isSome_of_any st.vars k h
      rw [hlk] at hs
      exact Bool.noConfusion hs
    | some w => simp

/-- C7: a bulk dump iterates variable names in sorted order regardless of
the order writes occurred, and appends to one name preserve the order of
appended tokens across call sites: after `append CFLAGS A`, `set AAA 1`,
`append CFLAGS B`, the dump lists `AAA` before `CFLAGS` and `CFLAGS` holds
token `A` before token `B`. -/
theorem variables_dump_sorted_append_order :
    (∀ st : VarStore, List.Sorted keyLe st.dump)
    ∧ (∀ (st : VarStore) (k : String) (v : List String),
        getTokens (appendVar st k v) k = getTokens st k ++ v)
    ∧ (appendVar (setVar (appendVar ⟨[]⟩ "CFLAGS" ["A"]) "AAA" ["1"]) "CFLAGS" ["B"]).dump
        = [("AAA", ["1"]), ("CFLAGS", ["A", "B"])] :=
  ⟨fun st => List.sorted_insertionSort keyLe st.vars, getTokens_appendVar, by decide⟩

/-! ### GNU toolchain options (`class GnuToolchainOptions`) -/

/-- The resolved GNU toolchain fields the claims are about. -/
structure GnuToolchainConf where
  from_arcadia : Bool
  os_sdk : Option String
deriving DecidableEq

/-- Source `GnuToolchainOptions._default_os_sdk`: the compatibility table
for the default OS SDK (`None` for non-Linux targets, from the implicit
Python return). -/
def default_os_sdk (host target : Platform) (versionList : List Nat) : Option String :=
  if target.is_linux then
    if target.is_x86_64 then
      if host.is_linux && !(version_at_least versionList [4, 0]) then some "local"
      else some "ubuntu-12"
    else if target.is_aarch64 then some "ubuntu-16"
    else some "ubuntu-12"
  else none

/-- Source `GnuToolchainOptions.__init__` OS-SDK resolution:
`self.os_sdk = preset('OS_SDK') or self._default_os_sdk()`, plus the
`from_arcadia` marker set by `ToolchainOptions.__init__` (true when no
detector ran, i.e. the toolchain is packaged). The default table is
consulted whenever the preset is absent or falsy, with no condition on
`from_arcadia`. -/
def mkGnuToolchain (presets : Presets) (host target : Platform) (versionList : List Nat)
    (from_arcadia : Bool) : GnuToolchainConf :=
  { from_arcadia := from_arcadia,
    os_sdk :=
      match preset presets "OS_SDK" with
      | some s => if s.isEmpty then default_os_sdk host target versionList else some s
      | none => default_os_sdk host target versionList }

/-- A Linux x86_64 platform value used for concrete instantiations. -/
def linuxX8664 : Platform := { name := "linux", os := "linux", arch := "x86_64" }

/-- C3 counterexample: with no `OS_SDK` preset, a packaged toolchain
(`from_arcadia = true`) for a Linux target still resolves its OS SDK
through the default table (here to `ubuntu-12`), so the default policy is
not restricted to non-packaged toolchains as the claim states. -/
theorem os_sdk_default_applies_when_packaged :
    (mkGnuToolchain [] linuxX8664 linuxX8664 [4, 9, 2] true).from_arcadia = true
    ∧ (mkGnuToolchain [] linuxX8664 linuxX8664 [4, 9, 2] true).os_sdk = some "ubuntu-12" := by
  constructor
  · rfl
  · decide

/-- C3 (amended): when no explicit `OS_SDK` override is given, and whether
or not the toolchain is packaged, the default OS SDK for a Linux target
resolves through the table: Linux x86_64 target with a Linux host and a
compiler version strictly below `(4,0)` gives the `local` marker; a Linux
aarch64 target gives `ubuntu-16`; any other Linux target gives
`ubuntu-12`. -/
theorem gnu_toolchain_default_os_sdk :
    ∀ (presets : Presets) (host target : Platform) (versionList : List Nat)
      (fromArc : Bool),
      preset presets "OS_SDK" = none →
      target.is_linux = true →
      (mkGnuToolchain presets host target versionList fromArc).os_sdk =
        some (if target.is_x86_64 && (host.is_linux && !(version_at_least versionList [4, 0]))
              then "local"
              else if target.is_aarch64 then "ubuntu-16"
              else "ubuntu-12") := by
  intro presets host target versionList fromArc hpre hlin
  unfold mkGnuToolchain default_os_sdk
  rw [hpre]
  simp only [hlin, if_true]
  cases hx : target.is_x86_64
  · have ha : target.is_aarch64 = target.is_aarch64 := rfl
    cases haa : target.is_aarch64 <;> simp [hx, haa]
  · have haa : target.is_aarch64 = false := by
      unfold Platform.is_x86_64 at hx
      unfold Platform.is_aarch64
      have harch : target.arch = "x86_64" := eq_of_beq hx
      rw [harch]
      rfl
    cases hin : host.is_linux && !(version_at_least versionList [4, 0]) <;>
      simp [hx, haa, hin]

/-- C3 witness: the amended OS-SDK theorem applied at concrete inputs:
a Linux x86_64 host and target with compiler version `(3,9)` resolves to
`local`, and with version `(4,0)` to `ubuntu-12`. -/
theorem gnu_toolchain_default_os_sdk_witness :
    (mkGnuToolchain [] linuxX8664 linuxX8664 [3, 9] false).os_sdk = some "local"
    ∧ (mkGnuToolchain [] linuxX8664 linuxX8664 [4, 0] false).os_sdk = some "ubuntu-12" := by
  constructor
  · have h := gnu_toolchain_default_os_sdk [] linuxX8664 linuxX8664 [3, 9] false
      (by rfl) (by decide)
    rw [h]
    decide
  · have h := gnu_toolchain_default_os_sdk [] linuxX8664 linuxX8664 [4, 0] false
      (by rfl) (by decide)
    rw [h]
    decide

/-! ### GNU compiler strategy (`class GnuCompiler`, `class GCC`) -/

/-- Source `gcc_sse_opts` of `GnuCompiler.__init__`: SSE compile flag paired
with its define, for the three SSE levels. -/
def gcc_sse_opts : List (String × String) :=
  [("-msse", "-DSSE_ENABLED=1"), ("-msse2", "-DSSE2_ENABLED=1"), ("-msse3", "-DSSE3_ENABLED=1")]

/-- Source `enable_sse` computation: Intel-class target, forced off for
iOS targets. -/
def enable_sse (target : Platform) : Bool := target.is_intel && !target.is_ios

/-- The SSE compile flags contributed by `GnuCompiler.__init__`. -/
def sseFlags (presets : Presets) (target : Platform) : List String :=
  if enable_sse target then
    if !(is_positive presets "NOSSE") then gcc_sse_opts.map (·.1) else []
  else []

/-- The SSE defines contributed by `GnuCompiler.__init__` (the single
`-no-sse` token when SSE is disabled by `NOSSE`). -/
def sseDefines (presets : Presets) (target : Platform) : List String :=
  if enable_sse target then
    if !(is_positive presets "NOSSE") then gcc_sse_opts.map (·.2) else ["-no-sse"]
  else []

/-- The composed flag state of `GnuCompiler` after `__init__` (including
`configure_build_type`). -/
structure GnuCompilerConf where
  c_flags : List String
  c_defines : List String
  optimize : Option String
deriving DecidableEq

/-- Source `GnuCompiler.__init__` baseline defines plus the Linux/Cygwin
`_GNU_SOURCE` addition. -/
def baseDefines (target : Platform) : List String :=
  ["-D_FILE_OFFSET_BITS=64", "-D_LARGEFILE_SOURCE", "-D__STDC_CONSTANT_MACROS",
   "-D__STDC_FORMAT_MACROS", "-DGNU"]
  ++ (if target.is_linux || target.is_cygwin then ["-D_GNU_SOURCE"] else [])

/-- Source `GnuCompiler.__init__` bit-width flag selection, applied to
Intel-class targets only. -/
def bitFlags (target : Platform) : List String :=
  if target.is_intel then
    (if target.is_32_bit then ["-m32"] else []) ++ (if target.is_64_bit then ["-m64"] else [])
  else []

/-- Source `GnuCompiler.configure_build_type` flag additions, in source
order: debug stack protector, release optimization placeholder, coverage
instrumentation, profiler frame-pointer retention, gprof profiling flag. -/
def buildTypeFlags (bt : String) : List String :=
  (if is_debug bt then ["$FSTACK"] else [])
  ++ (if is_release bt then ["$OPTIMIZE"] else [])
  ++ (if is_coverage bt then ["-fprofile-arcs", "-ftest-coverage"] else [])
  ++ (if (profiler_type bt).isSome then ["-fno-omit-frame-pointer"] else [])
  ++ (if profiler_type bt == some "gprof" then ["-pg"] else [])

/-- Source `GnuCompiler.configure_build_type` define additions: the
valgrind define, then `-DNDEBUG` when `with_ndebug` else `-UNDEBUG`. -/
def buildTypeDefines (bt : String) : List String :=
  (if is_valgrind bt then ["-DWITH_VALGRIND=1"] else [])
  ++ (if with_ndebug bt then ["-DNDEBUG"] else ["-UNDEBUG"])

/-- Source `GnuCompiler.__init__` composition of `c_flags`, `c_defines` and
`optimize` (`-O2` is recorded for release builds). -/
def mkGnuCompiler (presets : Presets) (target : Platform) (bt : String)
    (arch_opt : List String) : GnuCompilerConf :=
  { c_flags := arch_opt ++ ["-pipe"] ++ bitFlags target ++ sseFlags presets target
      ++ buildTypeFlags bt,
    c_defines := baseDefines target ++ sseDefines presets target ++ buildTypeDefines bt,
    optimize := if is_release bt then some "-O2" else none }

/-- Source `GCC.__init__` version-gated flags appended after the shared
`GnuCompiler.__init__` ran. -/
def gccVersionFlags (versionList : List Nat) : List String :=
  if version_at_least versionList [4, 9] then
    ["-fno-delete-null-pointer-checks", "-fabi-version=8"]
  else []

/-- Source `GCC.__init__`: the shared GNU composition followed by the
version-gated GCC flags. -/
def mkGCC (presets : Presets) (target : Platform) (bt : String) (arch_opt : List String)
    (versionList : List Nat) : GnuCompilerConf :=
  let g := mkGnuCompiler presets target bt arch_opt
  { g with c_flags := g.c_flags ++ gccVersionFlags versionList }

/-- C1: for a Linux/x86_64 target with GNU compiler version `(4,9,2)`, the
release configuration records `OPTIMIZE=-O2`, carries
`-fno-delete-null-pointer-checks` in the C flags and `-DNDEBUG` in the
defines; the debug configuration with the same inputs does not define
`NDEBUG`, defines `-UNDEBUG`, and carries the `$FSTACK` stack-protector
placeholder in the C flags. -/
theorem gcc_release_debug_configuration :
    (mkGCC [] linuxX8664 "release" [] [4, 9, 2]).optimize = some "-O2"
    ∧ "-fno-delete-null-pointer-checks" ∈ (mkGCC [] linuxX8664 "release" [] [4, 9, 2]).c_flags
    ∧ "-DNDEBUG" ∈ (mkGCC [] linuxX8664 "release" [] [4, 9, 2]).c_defines
    ∧ "-DNDEBUG" ∉ (mkGCC [] linuxX8664 "debug" [] [4, 9, 2]).c_defines
    ∧ "-UNDEBUG" ∈ (mkGCC [] linuxX8664 "debug" [] [4, 9, 2]).c_defines
    ∧ "$FSTACK" ∈ (mkGCC [] linuxX8664 "debug" [] [4, 9, 2]).c_flags := by
  refine ⟨by decide, by decide, by decide, by decide, by decide, by decide⟩

/-- C2: for every Intel-class, non-iOS target: without a positive `NOSSE`
override the GNU compiler contributes exactly the three SSE flags and the
three matching defines; with `NOSSE` set positively it contributes the
single `-no-sse` define token and no SSE flag. -/
theorem gnu_sse_enablement :
    ∀ (presets : Presets) (target : Platform),
      target.is_intel = true → target.is_ios = false →
      (is_positive presets "NOSSE" = false →
        sseFlags presets target = ["-msse", "-msse2", "-msse3"]
        ∧ sseDefines presets target
            = ["-DSSE_ENABLED=1", "-DSSE2_ENABLED=1", "-DSSE3_ENABLED=1"])
      ∧ (is_positive presets "NOSSE" = true →
        sseDefines presets target = ["-no-sse"] ∧ sseFlags presets target = []) := by
  intro presets target hintel hios
  have hsse : enable_sse target = true := by
    unfold enable_sse
    rw [hintel, hios]
    rfl
  constructor
  · intro hno
    unfold sseFlags sseDefines
    rw [hsse, hno]
    exact ⟨rfl, rfl⟩
  · intro hyes
    unfold sseFlags sseDefines
    rw [hsse, hyes]
    exact ⟨rfl, rfl⟩

/-- C2 witness: the SSE theorem applied at a Linux x86_64 target with an
empty preset table (SSE on) and with `NOSSE=yes` (SSE off). -/
theorem gnu_sse_enablement_witness :
    (sseFlags [] linuxX8664 = ["-msse", "-msse2", "-msse3"]
      ∧ sseDefines [] linuxX8664
          = ["-DSSE_ENABLED=1", "-DSSE2_ENABLED=1", "-DSSE3_ENABLED=1"])
    ∧ (sseDefines [("NOSSE", "yes")] linuxX8664 = ["-no-sse"]
      ∧ sseFlags [("NOSSE", "yes")] linuxX8664 = []) :=
  ⟨(gnu_sse_enablement [] linuxX8664 (by decide) (by decide)).1 (by decide),
   (gnu_sse_enablement [("NOSSE", "yes")] linuxX8664 (by decide) (by decide)).2 (by decide)⟩

/-! ### Unix linker strategy (`class LD`) -/

/-- Source `GnuToolchainOptions.__init__` archiver default:
`self.ar = self.params.get('ar') or 'ar'`. -/
def tcArchiver (paramsAr : Option String) : String := pyOrStr paramsAr "ar"

/-- Source `LD.__init__` archiver resolution: `preset('AR') or self.tc.ar`,
then the macOS libtool override: when the target is macOS and the resolved
string does not contain `libtool`, it is silently replaced by `libtool`. -/
def ldArchiver (presets : Presets) (paramsAr : Option String) (target : Platform) : String :=
  let ar := pyOrStr (preset presets "AR") (tcArchiver paramsAr)
  if target.is_macos && !(pyIn "libtool" ar) then "libtool" else ar

/-- Source `LD.print_linker` `AR_TYPE` emission:
`'AR' if 'libtool' not in self.ar else 'LIBTOOL'`. -/
def arType (ar : String) : String := if pyIn "libtool" ar then "LIBTOOL" else "AR"

/-- C10: on every macOS target, whatever the `AR` preset and the toolchain
`ar` parameter were, the resolved archiver string contains `libtool` (a
non-libtool archiver is silently replaced by `libtool`), and the emitted
`AR_TYPE` is `LIBTOOL`. -/
theorem macos_ar_is_libtool :
    ∀ (presets : Presets) (paramsAr : Option String) (target : Platform),
      target.is_macos = true →
      pyIn "libtool" (ldArchiver presets paramsAr target) = true
      ∧ arType (ldArchiver presets paramsAr target) = "LIBTOOL" := by
  intro presets paramsAr target hmac
  unfold ldArchiver
  cases hin : pyIn "libtool" (pyOrStr (preset presets "AR") (tcArchiver paramsAr))
  · rw [hmac]
    simp only [hin, Bool.not_false, Bool.and_true, if_true]
    exact ⟨by decide, by decide⟩
  · rw [hmac]
    simp only [hin, Bool.not_true, Bool.and_false, Bool.false_eq_true, if_false]
    refine ⟨trivial, ?_⟩
    unfold arType
    rw [hin]
    rfl


/-- C10 witness: the macOS archiver theorem at a concrete macOS target with
no presets and no `ar` parameter (so the `ar` fallback default is used and
replaced by `libtool`). -/
theorem macos_ar_is_libtool_witness :
    pyIn "libtool" (ldArchiver [] none { name := "mac", os := "macos", arch := "x86_64" }) = true
    ∧ arType (ldArchiver [] none { name := "mac", os := "macos", arch := "x86_64" })
        = "LIBTOOL" :=
  macos_ar_is_libtool [] none { name := "mac", os := "macos", arch := "x86_64" } (by decide)

end Ymake
